import Mathlib

/-!
# Verification of the Overkill orchestration core

Shallow embedding of the orchestration / human-in-the-loop synchronization
layer of the Overkill repository, together with proofs about the claims of
its specification.

The embedded pieces are:

* `VibeEngineer.engineer`'s interactive turn loop
  (`src/overkill/core/engineer.py`, lines 67-116), modelled as the fuel-bounded
  recursive function `engineerLoop` over an oracle stream of agent responses
  and an oracle stream of human inputs, producing the conversation history and
  a trace of UI/agent effects;
* `VibeEngineer._get_user_input` (lines 127-138), modelled as `get_user_input`
  over an explicit demo-cursor state;
* `RepoExplorer._log_tool_result` (`src/overkill/core/explorer.py`,
  lines 95-108), modelled as `log_tool_result`;
* `OverkillApp.prompt_user` / `on_input_submitted`
  (`src/overkill/ui/textual_ui.py`), modelled as a transition system on the
  single-slot input-wait state;
* `TextualUI.shutdown` (lines 361-364), modelled on an app-run state;
* `run_pipeline` / `clone_repo` (`src/overkill/main.py`), modelled as a
  branch-faithful outcome function with an explicit try/finally split.
-/

/-- Number of characters of a string, mirroring Python `len` on `str`
(both count code points). -/
def pyLen (s : String) : Nat := s.toList.length

/-- Python `str.lower`, restricted to the per-character lowering that the
strings of this program use (ASCII). -/
def pyLower (s : String) : String := String.mk (s.toList.map Char.toLower)

/-- `startsWithList l sub` iff `sub` is a prefix of `l`. -/
def startsWithList : List Char → List Char → Bool
  | _, [] => true
  | [], _ :: _ => false
  | a :: as, b :: bs => a = b && startsWithList as bs

/-- `containsList sub l` iff `sub` occurs contiguously inside `l`;
mirrors Python's `sub in l` on strings. -/
def containsList (sub : List Char) : List Char → Bool
  | [] => startsWithList [] sub
  | c :: cs => startsWithList (c :: cs) sub || containsList sub cs

/-- Python `sub in s` substring test. -/
def strContains (s sub : String) : Bool := containsList sub.toList s.toList

/-! ## The interactive turn loop (`VibeEngineer.engineer`) -/

/-- One entry of `conversation_history`: the dict
`{"role": ..., "content": ...}` of `engineer.py`. -/
structure Turn where
  role : String
  content : String
deriving Repr, DecidableEq

/-- Observable effects the loop body performs, in program order:
UI calls, the consumption of one agent turn (`client.receive_response`),
one `_get_user_input` call, and one `client.query`. -/
inductive UiEvent where
  | addMessage (role content : String)
  | logActivity (message icon : String)
  | updateAgentStatus (name status : String)
  | awaitResponse
  | requestInput
  | queryAgent (message : String)
deriving Repr, DecidableEq

/-- The session-ending tokens of `engineer.py` line 106. -/
def endingTokens : List String := ["done", "exit", "quit", "finish"]

/-- The confirmation answers accepted at line 97. -/
def affirmTokens : List String := ["yes", "y", "done"]

/-- The readiness test of lines 90-93:
`"SPEC_READY" in assistant_response or
 "ready to generate" in assistant_response.lower()`. -/
def specReady (response : String) : Bool :=
  strContains response "SPEC_READY" ||
    strContains (pyLower response) "ready to generate"

/-- The events produced at the top of each loop iteration (lines 68-80):
the waiting log line, the consumption of one agent turn, and the
response-length log line. -/
def turnEvents (response : String) : List UiEvent :=
  [UiEvent.logActivity "Waiting for Claude response..." "⏳",
   UiEvent.awaitResponse,
   UiEvent.logActivity ("Response length: " ++ toString (pyLen response)) "📝"]

/-- The confirmation question of line 94. -/
def readyQuestion : String := "Ready to generate SPEC.md? (yes/no)"

/-- The "Get user input" section of the loop body (lines 100-114):
one `_get_user_input` call, then the empty / session-ending / normal-turn
branches.  `recurse` is the return to the top of the `while True` loop;
on the normal-turn branch the user turn is displayed, appended to the
history, and sent to the agent before looping. -/
def engineerInputStep
    (recurse : List String → List String → List Turn → List UiEvent →
      Option (List Turn × List UiEvent))
    (rest : List String) (inputs : List String)
    (history : List Turn) (events : List UiEvent) :
    Option (List Turn × List UiEvent) :=
  match inputs with
  | [] => none
  | userInput :: restIn =>
    if userInput = "" then
      recurse rest restIn history (events ++ [UiEvent.requestInput])
    else if endingTokens.contains (pyLower userInput) then
      some (history, events ++ [UiEvent.requestInput])
    else
      recurse rest restIn (history ++ [⟨"user", userInput⟩])
        (events ++ [UiEvent.requestInput,
          UiEvent.addMessage "user" userInput,
          UiEvent.updateAgentStatus "VibeEngineer" "Thinking...",
          UiEvent.queryAgent userInput])

/-- The `while True` loop of `VibeEngineer.engineer` (lines 67-116).
`fuel` bounds the number of iterations; `responses` is the oracle stream of
full agent-turn texts yielded by successive `client.receive_response`
consumptions (an empty stream means the consumption never completes);
`inputs` is the oracle stream of successive `_get_user_input` return values.
Returns the final `conversation_history` and the effect trace, or `none`
when the run does not terminate within `fuel` iterations (or blocks on an
exhausted oracle). -/
def engineerLoop : Nat → List String → List String → List Turn → List UiEvent →
    Option (List Turn × List UiEvent)
  | 0, _, _, _, _ => none
  | _ + 1, [], _, _, _ => none
  | fuel + 1, response :: rest, inputs, history, events =>
    if response = "" then
      -- line 115-116: `else: break`
      some (history, events ++ turnEvents response)
    else
      -- lines 82-87: display and record the agent turn
      if specReady response then
        -- lines 89-98: readiness confirmation through the human-input path
        match inputs with
        | [] => none
        | confirm :: restIn =>
          if affirmTokens.contains (pyLower confirm) then
            some (history ++ [⟨"assistant", response⟩],
              events ++ turnEvents response ++
                [UiEvent.addMessage "agent" response,
                 UiEvent.addMessage "agent" readyQuestion,
                 UiEvent.requestInput,
                 UiEvent.addMessage "user" confirm])
          else
            engineerInputStep (fun a b c d => engineerLoop fuel a b c d)
              rest restIn (history ++ [⟨"assistant", response⟩])
              (events ++ turnEvents response ++
                [UiEvent.addMessage "agent" response,
                 UiEvent.addMessage "agent" readyQuestion,
                 UiEvent.requestInput,
                 UiEvent.addMessage "user" confirm])
      else
        engineerInputStep (fun a b c d => engineerLoop fuel a b c d)
          rest inputs (history ++ [⟨"assistant", response⟩])
          (events ++ turnEvents response ++ [UiEvent.addMessage "agent" response])

example : engineerLoop 1 ["hi"] ["done"] [] [] =
    some ([⟨"assistant", "hi"⟩],
      turnEvents "hi" ++ [UiEvent.addMessage "agent" "hi", UiEvent.requestInput]) := by
  decide

example : engineerLoop 2 ["What do you want?", ""] [""] [] [] =
    some ([⟨"assistant", "What do you want?"⟩],
      turnEvents "What do you want?" ++
        [UiEvent.addMessage "agent" "What do you want?", UiEvent.requestInput] ++
        turnEvents "") := by
  decide

/-! ## `VibeEngineer._get_user_input` and the demo-mode state -/

/-- The fields of `VibeEngineer.__init__` that `_get_user_input` reads and
writes (lines 28-36): the demo flag, the canned-response list, and the
cursor into it. -/
structure EngineerInputState where
  demo_mode : Bool
  demo_responses : List String
  demo_response_index : Nat
deriving Repr, DecidableEq

/-- The fixed five-entry canned-response list of `__init__` (lines 29-35). -/
def demoResponsesInit : List String :=
  ["I want to create a marketing landing page for Quivr, separate from the docs. Something modern that showcases what it does.",
   "The main message should be: turn any codebase into an intelligent Q&A system. Fast setup, no infrastructure needed.",
   "I want it clean and minimal - think Vercel or Linear style. Fast, with maybe one subtle animation on the hero.",
   "Main CTA should be 'Get Started' linking to docs, secondary CTA 'View on GitHub'. Target audience is Python devs doing RAG.",
   "done"]

/-- The input-request state right after `VibeEngineer.__init__`. -/
def initEngineerInputState (demo_mode : Bool) : EngineerInputState :=
  ⟨demo_mode, demoResponsesInit, 0⟩

/-- `VibeEngineer._get_user_input` (lines 127-138).  `uiAnswer` is the value
`self.ui.prompt_user(prompt)` would resolve to (it stands for the whole
display-surface state the interactive path depends on).  Returns the
response, the successor state, and whether `prompt_user` was invoked. -/
def get_user_input (s : EngineerInputState) (uiAnswer : String) :
    String × EngineerInputState × Bool :=
  if s.demo_mode then
    if h : s.demo_response_index < s.demo_responses.length then
      (s.demo_responses.get ⟨s.demo_response_index, h⟩,
       { s with demo_response_index := s.demo_response_index + 1 }, false)
    else
      ("done", s, false)
  else
    (uiAnswer, s, true)

/-- State after `n` successive `_get_user_input` calls, the `i`-th call
seeing display-surface answer `oracle i`. -/
def runInputCalls (s : EngineerInputState) (oracle : Nat → String) :
    Nat → EngineerInputState
  | 0 => s
  | n + 1 => (get_user_input (runInputCalls s oracle n) (oracle n)).2.1

/-- The value returned by the call made after `n` prior calls. -/
def inputCallValue (s : EngineerInputState) (oracle : Nat → String) (n : Nat) :
    String :=
  (get_user_input (runInputCalls s oracle n) (oracle n)).1

/-- Whether the call made after `n` prior calls invoked `prompt_user`. -/
def inputCallUsedPrompt (s : EngineerInputState) (oracle : Nat → String)
    (n : Nat) : Bool :=
  (get_user_input (runInputCalls s oracle n) (oracle n)).2.2

/-- Demo-mode call value as a function of the canned list and the call
count alone. -/
def demoCallValue (rs : List String) (n : Nat) : String :=
  inputCallValue ⟨true, rs, 0⟩ (fun _ => "") n

example : demoCallValue ["a", "b"] 1 = "b" := by decide
example : demoCallValue ["a", "b"] 2 = "done" := by decide

/-! ## The display surface's single-slot input wait
(`OverkillApp.prompt_user` / `on_input_submitted`) -/

/-- The input-slot fields of `OverkillApp` (lines 198-201), with
`asyncio.Event` objects represented by allocation identities:
`next_event_id` is the identity the next `asyncio.Event()` allocation
yields and `set_events` records which events have been `.set()`. -/
structure InputSlotState where
  input_event : Option Nat
  input_value : String
  last_streaming_text : String
  next_event_id : Nat
  set_events : List Nat
deriving Repr, DecidableEq

/-- The `OverkillApp` input-slot state after `__init__`. -/
def initInputSlot : InputSlotState := ⟨none, "", "", 0, []⟩

/-- The synchronous prefix of `OverkillApp.prompt_user` (lines 301-311),
up to `await self._input_event.wait()`: allocate a fresh event, install it
in the slot, clear the pending value and streaming text.  Returns the new
state and the identity of the event this call waits on.  The source
performs no check of an already-armed slot before overwriting it. -/
def prompt_user_arm (s : InputSlotState) : InputSlotState × Nat :=
  ({ s with
      input_event := some s.next_event_id,
      input_value := "",
      last_streaming_text := "",
      next_event_id := s.next_event_id + 1 },
   s.next_event_id)

/-- `OverkillApp.on_input_submitted` (lines 231-236): when a wait slot is
armed, store the submitted value and set that event; otherwise do
nothing. -/
def on_input_submitted (s : InputSlotState) (value : String) : InputSlotState :=
  match s.input_event with
  | none => s
  | some e => { s with input_value := value, set_events := e :: s.set_events }

/-- Whether the wait on event `e` has resolved. -/
def eventResolved (s : InputSlotState) (e : Nat) : Prop := e ∈ s.set_events

instance (s : InputSlotState) (e : Nat) : Decidable (eventResolved s e) :=
  inferInstanceAs (Decidable (e ∈ s.set_events))

/-! ## `TextualUI.shutdown` -/

/-- The run state of the wrapped Textual app: whether its event loop is
active, and whether `App.exit()` has been requested. -/
structure AppRunState where
  is_running : Bool
  exit_requested : Bool
deriving Repr, DecidableEq

/-- `App.exit()`: request the surface loop to end.  (The loop observes the
flag and unwinds later; the flag is all a caller can change.) -/
def appExit (s : AppRunState) : AppRunState := { s with exit_requested := true }

/-- `TextualUI.shutdown` (lines 361-364):
`if self.app.is_running: self.app.exit()`. -/
def shutdown (s : AppRunState) : AppRunState :=
  if s.is_running then appExit s else s

/-! ## `RepoExplorer._log_tool_result` -/

/-- `RepoExplorer._log_tool_result` (explorer.py lines 95-108) applied to
`content = str(block.content) if block.content else ""`: the activity-log
line it writes, or `none` when it writes nothing.  Over 100 characters a
line count replaces the raw text; otherwise the first 50 characters (with
newlines blanked) are shown, with `"..."` appended when that truncates. -/
def log_tool_result (content : String) : Option String :=
  if pyLen content > 100 then
    some ("Result: " ++ toString (content.toList.count '\n' + 1) ++ " lines")
  else if content = "" then
    none
  else
    let preview :=
      String.mk ((content.toList.take 50).map fun ch => if ch = '\n' then ' ' else ch)
    let preview := if pyLen content > 50 then preview ++ "..." else preview
    some ("Result: " ++ preview)

example : log_tool_result "ok" = some "Result: ok" := by decide

/-! ## `run_pipeline` / `clone_repo` (`main.py`) -/

/-- The three pipeline phases of `run_pipeline` lines 76-87. -/
inductive PipePhase where
  | explore
  | engineer
  | crystallize
deriving Repr, DecidableEq

/-- The environment a `run_pipeline` execution runs against: whether the
repo argument is a URL (line 65), whether `git clone` succeeds, whether a
local path exists (line 72), and an optionally injected phase failure. -/
structure PipeEnv where
  repo_is_url : Bool
  clone_ok : Bool
  local_path_exists : Bool
  fail_at : Option PipePhase
deriving Repr, DecidableEq

/-- Observable outcome of one `run_pipeline` execution: whether
`tempfile.mkdtemp` ran, whether that directory still exists when the task
ends, the `cleanup` local, whether the `except` arm logged an error, and
whether all three phases completed. -/
structure PipeState where
  temp_dir_exists : Bool
  cleanup : Bool
  error_logged : Bool
  completed : Bool
deriving Repr, DecidableEq

/-- The `try` body of `run_pipeline` (lines 63-93) together with its
`except` arm, branch by branch.  `clone_repo` (lines 24-37) first creates
the temporary directory with `mkdtemp` and only then runs `git clone`; on
clone failure it raises before `cleanup = True` is reached (line 68). -/
def run_pipeline_try (env : PipeEnv) : PipeState :=
  if env.repo_is_url then
    if env.clone_ok then
      match env.fail_at with
      | some _ =>
        { temp_dir_exists := true, cleanup := true,
          error_logged := true, completed := false }
      | none =>
        { temp_dir_exists := true, cleanup := true,
          error_logged := false, completed := true }
    else
      { temp_dir_exists := true, cleanup := false,
        error_logged := true, completed := false }
  else
    if env.local_path_exists then
      match env.fail_at with
      | some _ =>
        { temp_dir_exists := false, cleanup := false,
          error_logged := true, completed := false }
      | none =>
        { temp_dir_exists := false, cleanup := false,
          error_logged := false, completed := true }
    else
      -- line 72-74: early return after logging the missing path
      { temp_dir_exists := false, cleanup := false,
        error_logged := true, completed := false }

/-- The `finally` clause (lines 94-97): `shutil.rmtree` when `cleanup`
was set. -/
def run_pipeline_finally (s : PipeState) : PipeState :=
  if s.cleanup then { s with temp_dir_exists := false } else s

/-- One `run_pipeline` execution, end to end: the `try`/`except` body
followed by the unconditional `finally`. -/
def run_pipeline (env : PipeEnv) : PipeState :=
  run_pipeline_finally (run_pipeline_try env)

example : (run_pipeline ⟨true, true, true, some PipePhase.engineer⟩).temp_dir_exists = false := by
  decide

/-! ## Helper lemmas about the interactive turn loop -/

/-- The events of the readiness-confirmation exchange (lines 84, 94-96):
the displayed agent turn, the displayed question, the confirmation input
request, and the displayed answer. -/
def confirmEvents (response confirm : String) : List UiEvent :=
  [UiEvent.addMessage "agent" response,
   UiEvent.addMessage "agent" readyQuestion,
   UiEvent.requestInput,
   UiEvent.addMessage "user" confirm]

/-- Unfolding of one loop iteration on a non-empty, readiness-signalling
agent response: the confirmation is requested, then either branch of the
answer check. -/
lemma engineer_ready_eq (fuel : Nat) (r : String) (rest : List String)
    (confirm : String) (restIn : List String) (history : List Turn)
    (events : List UiEvent) (hr : r ≠ "") (hs : specReady r = true) :
    engineerLoop (fuel + 1) (r :: rest) (confirm :: restIn) history events =
      if affirmTokens.contains (pyLower confirm) then
        some (history ++ [⟨"assistant", r⟩],
          events ++ turnEvents r ++ confirmEvents r confirm)
      else
        engineerInputStep (fun a b c d => engineerLoop fuel a b c d) rest restIn
          (history ++ [⟨"assistant", r⟩])
          (events ++ turnEvents r ++ confirmEvents r confirm) := by
  simp only [engineerLoop, if_neg hr, hs, if_true, confirmEvents]

/-- Unfolding of one loop iteration on a non-empty agent response without
the readiness signal: control falls through to the input step. -/
lemma engineer_normal_eq (fuel : Nat) (r : String) (rest : List String)
    (inputs : List String) (history : List Turn) (events : List UiEvent)
    (hr : r ≠ "") (hs : specReady r = false) :
    engineerLoop (fuel + 1) (r :: rest) inputs history events =
      engineerInputStep (fun a b c d => engineerLoop fuel a b c d) rest inputs
        (history ++ [⟨"assistant", r⟩])
        (events ++ turnEvents r ++ [UiEvent.addMessage "agent" r]) := by
  simp only [engineerLoop, if_neg hr, hs]
  rfl

/-- A transcript entry the loop is allowed to append: a non-empty agent
response, or a non-empty human message that is not a session-ending
token. -/
def goodTurn (t : Turn) : Prop :=
  (t.role = "assistant" ∧ t.content ≠ "") ∨
  (t.role = "user" ∧ t.content ≠ "" ∧
    endingTokens.contains (pyLower t.content) = false)

instance (t : Turn) : Decidable (goodTurn t) := by
  unfold goodTurn
  infer_instance

/-- The input step preserves the transcript invariant, assuming the
continuation does. -/
lemma engineerInputStep_goodTurns (fuel : Nat)
    (ih : ∀ responses inputs history events out,
      engineerLoop fuel responses inputs history events = some out →
      (∀ t ∈ history, goodTurn t) → ∀ t ∈ out.1, goodTurn t)
    (rest inputs : List String) (history : List Turn) (events : List UiEvent)
    (out : List Turn × List UiEvent)
    (heq : engineerInputStep (fun a b c d => engineerLoop fuel a b c d)
      rest inputs history events = some out)
    (hgood : ∀ t ∈ history, goodTurn t) : ∀ t ∈ out.1, goodTurn t := by
  cases inputs with
  | nil => simp [engineerInputStep] at heq
  | cons i restIn =>
    simp only [engineerInputStep] at heq
    by_cases hi : i = ""
    · rw [if_pos hi] at heq
      exact ih rest restIn history _ out heq hgood
    · rw [if_neg hi] at heq
      by_cases hend : endingTokens.contains (pyLower i) = true
      · rw [if_pos hend] at heq
        cases heq
        exact hgood
      · rw [if_neg hend] at heq
        refine ih rest restIn _ _ out heq ?_
        intro t ht
        rcases List.mem_append.mp ht with h1 | h2
        · exact hgood t h1
        · rw [List.mem_singleton.mp h2]
          exact Or.inr ⟨rfl, hi, by simpa using hend⟩

/-- The turn-loop transcript invariant: every terminating run only ever
appends non-empty agent responses and non-empty, non-ending human
messages. -/
lemma engineerLoop_goodTurns :
    ∀ fuel responses inputs history events out,
      engineerLoop fuel responses inputs history events = some out →
      (∀ t ∈ history, goodTurn t) → ∀ t ∈ out.1, goodTurn t := by
  intro fuel
  induction fuel with
  | zero =>
    intro responses inputs history events out heq
    simp [engineerLoop] at heq
  | succ fuel ih =>
    intro responses inputs history events out heq hgood
    cases responses with
    | nil => simp [engineerLoop] at heq
    | cons response rest =>
      by_cases hr : response = ""
      · simp only [engineerLoop, if_pos hr] at heq
        cases heq
        exact hgood
      · have hagent : ∀ t ∈ history ++ [(⟨"assistant", response⟩ : Turn)],
            goodTurn t := by
          intro t ht
          rcases List.mem_append.mp ht with h1 | h2
          · exact hgood t h1
          · rw [List.mem_singleton.mp h2]
            exact Or.inl ⟨rfl, hr⟩
        by_cases hs : specReady response = true
        · cases inputs with
          | nil => simp [engineerLoop, hr, hs] at heq
          | cons confirm restIn =>
            rw [engineer_ready_eq fuel response rest confirm restIn history
              events hr hs] at heq
            by_cases hc : affirmTokens.contains (pyLower confirm) = true
            · rw [if_pos hc] at heq
              cases heq
              exact hagent
            · rw [if_neg hc] at heq
              simp only [confirmEvents] at heq
              exact engineerInputStep_goodTurns fuel ih rest restIn _ _ out heq
                hagent
        · have hs' : specReady response = false := by simpa using hs
          rw [engineer_normal_eq fuel response rest inputs history events hr
            hs'] at heq
          exact engineerInputStep_goodTurns fuel ih rest inputs _ _ out heq
            hagent

/-! ## Helper lemmas about the demo-mode input state -/

/-- In demo mode the cursor after `n` calls is `min n rs.length`,
independently of the display-surface oracle. -/
lemma runInputCalls_demo (rs : List String) (oracle : Nat → String) (n : Nat) :
    runInputCalls ⟨true, rs, 0⟩ oracle n = ⟨true, rs, min n rs.length⟩ := by
  induction n with
  | zero => simp [runInputCalls]
  | succ n ih =>
    rw [runInputCalls, ih]
    rcases Nat.lt_or_ge n rs.length with h | h
    · have h1 : min n rs.length = n := Nat.min_eq_left h.le
      have h2 : min (n + 1) rs.length = n + 1 := Nat.min_eq_left h
      rw [h1, h2]
      simp [get_user_input, h]
    · have h1 : min n rs.length = rs.length := Nat.min_eq_right h
      have h2 : min (n + 1) rs.length = rs.length := Nat.min_eq_right (by omega)
      rw [h1, h2]
      simp [get_user_input]

/-- Demo-mode call values depend only on the canned list and the call
count. -/
lemma inputCallValue_demo (rs : List String) (oracle : Nat → String) (n : Nat) :
    inputCallValue ⟨true, rs, 0⟩ oracle n =
      if h : n < rs.length then rs.get ⟨n, h⟩ else "done" := by
  rw [inputCallValue, runInputCalls_demo]
  by_cases h : n < rs.length
  · have h1 : min n rs.length = n := Nat.min_eq_left h.le
    rw [h1]
    simp [get_user_input, h]
  · have h1 : min n rs.length = rs.length := Nat.min_eq_right (by omega)
    rw [h1]
    simp [get_user_input, h]

/-- Demo-mode calls never invoke `prompt_user`. -/
lemma inputCallUsedPrompt_demo (rs : List String) (oracle : Nat → String)
    (n : Nat) :
    inputCallUsedPrompt ⟨true, rs, 0⟩ oracle n = false := by
  rw [inputCallUsedPrompt, runInputCalls_demo]
  by_cases h : min n rs.length < rs.length <;> simp [get_user_input, h]

/-! ## Theorems for the claims -/

/-- C8: `shutdown()` is idempotent: for every surface state, calling it
twice in succession leaves the surface in the same terminal state as
calling it once. -/
theorem shutdown_idempotent (s : AppRunState) :
    shutdown (shutdown s) = shutdown s := by
  by_cases h : s.is_running <;> simp [shutdown, appExit, h]

/-- C7: whenever the pipeline staged (successfully cloned) a temporary
repository directory, that directory no longer exists once the pipeline
task ends, on the success path and under a failure injected at any of the
three phases. -/
theorem pipeline_cleanup (env : PipeEnv) (hurl : env.repo_is_url = true)
    (hclone : env.clone_ok = true) :
    (run_pipeline env).temp_dir_exists = false := by
  rcases env with ⟨u, c, l, f⟩
  cases f <;>
    simp_all [run_pipeline, run_pipeline_try, run_pipeline_finally]

/-- Witness for C7: the cleanup theorem at a concrete environment with a
failure injected at the Engineer phase. -/
theorem pipeline_cleanup_witness :
    (run_pipeline ⟨true, true, true, some PipePhase.engineer⟩).temp_dir_exists = false :=
  pipeline_cleanup ⟨true, true, true, some PipePhase.engineer⟩ rfl rfl

/-- C3, counterexample: starting from the freshly initialized surface, a
first `prompt_user` arms wait object `0`, which stays unresolved; a second
`prompt_user` call then goes through undetected and creates a second wait
object `1`, installing it in the slot — contradicting the claim that the
second call is detected as a contract violation before any second wait
object is created. -/
theorem prompt_user_second_call_counterexample :
    (prompt_user_arm initInputSlot).1.input_event = some 0 ∧
    ¬ eventResolved (prompt_user_arm initInputSlot).1 0 ∧
    (prompt_user_arm (prompt_user_arm initInputSlot).1).2 = 1 ∧
    (prompt_user_arm (prompt_user_arm initInputSlot).1).1.input_event = some 1 := by
  refine ⟨rfl, ?_, rfl, rfl⟩
  simp [eventResolved, prompt_user_arm, initInputSlot]

/-- C3, amended: a second `prompt_user` call while one is outstanding is
not detected at all: it silently allocates a fresh wait object, distinct
from the outstanding one, and replaces the slot with it; a subsequent
input submission resolves only the new object, never the first one. -/
theorem prompt_user_second_call_replaces (s : InputSlotState) (e : Nat)
    (v : String) (_harmed : s.input_event = some e)
    (hfresh : e < s.next_event_id) (hunres : ¬ eventResolved s e) :
    (prompt_user_arm s).1.input_event = some s.next_event_id ∧
    (prompt_user_arm s).2 ≠ e ∧
    ¬ eventResolved (on_input_submitted (prompt_user_arm s).1 v) e := by
  refine ⟨rfl, ?_, ?_⟩
  · show s.next_event_id ≠ e
    omega
  · show ¬ e ∈ (on_input_submitted (prompt_user_arm s).1 v).set_events
    have hset : (on_input_submitted (prompt_user_arm s).1 v).set_events =
        s.next_event_id :: s.set_events := rfl
    rw [hset]
    intro hm
    rcases List.mem_cons.mp hm with h1 | h2
    · omega
    · exact hunres h2

/-- Witness for the amended C3 theorem: the state after one outstanding
`prompt_user` on the fresh surface. -/
theorem prompt_user_second_call_replaces_witness :
    (prompt_user_arm (prompt_user_arm initInputSlot).1).1.input_event =
      some (prompt_user_arm initInputSlot).1.next_event_id ∧
    (prompt_user_arm (prompt_user_arm initInputSlot).1).2 ≠ 0 ∧
    ¬ eventResolved
        (on_input_submitted (prompt_user_arm (prompt_user_arm initInputSlot).1).1 "hi") 0 :=
  prompt_user_second_call_replaces (prompt_user_arm initInputSlot).1 0 "hi"
    rfl (by decide) (by decide)

/-- C2, counterexample: after the five canned responses are consumed, the
next scripted input request returns `"done"`, not the claimed synthetic
termination token `"finish the session"`. -/
theorem demo_exhaustion_counterexample :
    demoCallValue demoResponsesInit 5 = "done" ∧
    demoCallValue demoResponsesInit 5 ≠ "finish the session" := by
  constructor <;> decide

/-- C2, amended: in scripted/demo mode the `i`-th input request returns
the `i`-th entry of the canned-response list while `i` is below the list
length, and once the list is exhausted every subsequent call returns the
token `"done"`, for every list length. -/
theorem demo_exhaustion (rs : List String) (n : Nat) :
    (∀ h : n < rs.length, demoCallValue rs n = rs.get ⟨n, h⟩) ∧
    (rs.length ≤ n → demoCallValue rs n = "done") := by
  rw [demoCallValue, inputCallValue_demo]
  constructor
  · intro h
    simp [h]
  · intro h
    rw [dif_neg (by omega)]

/-- Witness for the amended C2 theorem: with the program's own canned
list, call 0 returns entry 0 and call 7 returns `"done"`. -/
theorem demo_exhaustion_witness :
    demoCallValue demoResponsesInit 0 = demoResponsesInit.get ⟨0, by decide⟩ ∧
    demoCallValue demoResponsesInit 7 = "done" :=
  ⟨(demo_exhaustion demoResponsesInit 0).1 (by decide),
   (demo_exhaustion demoResponsesInit 7).2 (by decide)⟩

/-- C10: with demo mode enabled, the input-request function is
deterministic up to its call count — two runs with the same number of
prior requests receive the identical next response whatever the display
surface would have answered, `prompt_user` is never invoked, and the value
is drawn from the fixed five-entry canned list and then the fixed
fallback. -/
theorem demo_input_deterministic (oracle oracle' : Nat → String) (n : Nat) :
    inputCallValue (initEngineerInputState true) oracle n =
      inputCallValue (initEngineerInputState true) oracle' n ∧
    inputCallUsedPrompt (initEngineerInputState true) oracle n = false ∧
    inputCallValue (initEngineerInputState true) oracle n =
      (if h : n < demoResponsesInit.length then demoResponsesInit.get ⟨n, h⟩
       else "done") := by
  refine ⟨?_, ?_, ?_⟩
  · rw [show initEngineerInputState true = ⟨true, demoResponsesInit, 0⟩ from rfl,
      inputCallValue_demo, inputCallValue_demo]
  · rw [show initEngineerInputState true = ⟨true, demoResponsesInit, 0⟩ from rfl,
      inputCallUsedPrompt_demo]
  · rw [show initEngineerInputState true = ⟨true, demoResponsesInit, 0⟩ from rfl,
      inputCallValue_demo]

/-- C5: for every non-empty tool-result body, the preview line is capped —
bodies over 100 characters are reported as a line count instead of raw
text, and shorter bodies get a preview of at most 100 characters that ends
in an ellipsis exactly when the body was truncated (over 50 characters). -/
theorem tool_result_preview (content : String) :
    (100 < pyLen content →
      log_tool_result content =
        some ("Result: " ++ toString (content.toList.count '\n' + 1) ++ " lines")) ∧
    (content ≠ "" → pyLen content ≤ 100 →
      ∃ p, log_tool_result content = some ("Result: " ++ p) ∧ pyLen p ≤ 100 ∧
        (50 < pyLen content → ∃ q, p = q ++ "..." ∧ pyLen q = 50)) := by
  constructor
  · intro h
    simp [log_tool_result, h]
  · intro hne hle
    have h100 : ¬ pyLen content > 100 := by omega
    have hlen :
        pyLen (String.mk ((content.toList.take 50).map
          fun ch => if ch = '\n' then ' ' else ch)) = min 50 (pyLen content) := by
      show ((content.toList.take 50).map
        fun ch => if ch = '\n' then ' ' else ch).length = _
      rw [List.length_map, List.length_take]
      rfl
    by_cases h50 : 50 < pyLen content
    · refine ⟨String.mk ((content.toList.take 50).map
        fun ch => if ch = '\n' then ' ' else ch) ++ "...", ?_, ?_, ?_⟩
      · simp [log_tool_result, h100, hne, h50]
      · have : pyLen (String.mk ((content.toList.take 50).map
            fun ch => if ch = '\n' then ' ' else ch) ++ "...") =
            min 50 (pyLen content) + 3 := by
          show (_ ++ _ : String).toList.length = _
          rw [show ∀ s t : String, (s ++ t).toList = s.toList ++ t.toList
            from fun _ _ => rfl]
          rw [List.length_append]
          exact congrArg (· + 3) hlen
        omega
      · intro _
        exact ⟨_, rfl, by rw [hlen]; omega⟩
    · refine ⟨String.mk ((content.toList.take 50).map
        fun ch => if ch = '\n' then ' ' else ch), ?_, ?_, ?_⟩
      · simp [log_tool_result, h100, hne, h50]
      · omega
      · intro h
        exact absurd h h50

/-- C6: a human input that case-insensitively equals one of the literal
session-ending tokens ends the loop immediately: the run returns with the
transcript extended by the agent turn only (the ending input is not
appended), and the appended trace contains no further agent query or
agent-turn wait. -/
theorem session_end_tokens (fuel : Nat) (r : String) (rest : List String)
    (i : String) (restIn : List String) (history : List Turn)
    (events : List UiEvent) (hr : r ≠ "") (hs : specReady r = false)
    (hi : i ≠ "") (hend : endingTokens.contains (pyLower i) = true) :
    engineerLoop (fuel + 1) (r :: rest) (i :: restIn) history events =
      some (history ++ [⟨"assistant", r⟩],
        events ++ turnEvents r ++
          [UiEvent.addMessage "agent" r, UiEvent.requestInput]) := by
  rw [engineer_normal_eq fuel r rest (i :: restIn) history events hr hs]
  simp only [engineerInputStep, if_neg hi, hend, if_true]
  simp

/-- A non-readiness agent question used to instantiate the loop theorems. -/
def probeMsg : String := "Tell me more about the feature."

/-- Witness for C6: the loop theorem at the concrete ending input
`"QUIT"`. -/
theorem session_end_tokens_witness :
    specReady probeMsg = false ∧
    endingTokens.contains (pyLower "QUIT") = true ∧
    engineerLoop 1 [probeMsg] ["QUIT"] [] [] =
      some ([⟨"assistant", probeMsg⟩],
        turnEvents probeMsg ++
          [UiEvent.addMessage "agent" probeMsg, UiEvent.requestInput]) :=
  ⟨by decide, by decide,
   session_end_tokens 0 probeMsg [] "QUIT" [] [] [] (by decide) (by decide)
     (by decide) (by decide)⟩

/-- C4: on an agent response carrying the readiness marker or phrase, a
yes/no confirmation is requested through the human-input path (the
`requestInput` in `confirmEvents`); an affirmative answer ends the loop
with the current transcript, and any other answer hands control to the
normal-turn input step, so the conversation continues. -/
theorem readiness_confirmation (fuel : Nat) (r : String) (rest : List String)
    (confirm : String) (restIn : List String) (history : List Turn)
    (events : List UiEvent) (hr : r ≠ "") (hs : specReady r = true) :
    engineerLoop (fuel + 1) (r :: rest) (confirm :: restIn) history events =
      if affirmTokens.contains (pyLower confirm) then
        some (history ++ [⟨"assistant", r⟩],
          events ++ turnEvents r ++ confirmEvents r confirm)
      else
        engineerInputStep (fun a b c d => engineerLoop fuel a b c d) rest restIn
          (history ++ [⟨"assistant", r⟩])
          (events ++ turnEvents r ++ confirmEvents r confirm) :=
  engineer_ready_eq fuel r rest confirm restIn history events hr hs

/-- A readiness-signalling agent response used to instantiate the loop
theorems. -/
def readyMsg : String := "I think we have enough. SPEC_READY"

/-- Witness for C4: the readiness theorem at the concrete answer `"no"`,
which is not affirmative, so the run continues with the normal-turn input
step. -/
theorem readiness_confirmation_witness :
    specReady readyMsg = true ∧
    affirmTokens.contains (pyLower "no") = false ∧
    (engineerLoop 1 [readyMsg] ["no", "done"] [] [] =
      if affirmTokens.contains (pyLower "no") then
        some ([⟨"assistant", readyMsg⟩],
          turnEvents readyMsg ++ confirmEvents readyMsg "no")
      else
        engineerInputStep (fun a b c d => engineerLoop 0 a b c d) [] ["done"]
          [⟨"assistant", readyMsg⟩]
          (turnEvents readyMsg ++ confirmEvents readyMsg "no")) :=
  ⟨by decide, by decide,
   readiness_confirmation 0 readyMsg [] "no" ["done"] [] [] (by decide)
     (by decide)⟩

/-- C9: (1) the transcript invariant — a terminating run only ever appends
non-empty agent responses and non-empty, non-ending human messages; (2) on
the readiness path the confirmation answer, whatever its value, is
displayed in the conversation panel (`addMessage "user" confirm` inside
`confirmEvents`) but the transcript handed on contains only the agent turn,
never the answer. -/
theorem transcript_excludes_confirmation :
    (∀ fuel responses inputs history events out,
      engineerLoop fuel responses inputs history events = some out →
      (∀ t ∈ history, goodTurn t) → ∀ t ∈ out.1, goodTurn t) ∧
    (∀ fuel r rest confirm restIn history events, r ≠ "" →
      specReady r = true →
      (affirmTokens.contains (pyLower confirm) = true →
        engineerLoop (fuel + 1) (r :: rest) (confirm :: restIn) history
            events =
          some (history ++ [⟨"assistant", r⟩],
            events ++ turnEvents r ++ confirmEvents r confirm)) ∧
      (affirmTokens.contains (pyLower confirm) = false →
        engineerLoop (fuel + 1) (r :: rest) (confirm :: restIn) history
            events =
          engineerInputStep (fun a b c d => engineerLoop fuel a b c d) rest
            restIn (history ++ [⟨"assistant", r⟩])
            (events ++ turnEvents r ++ confirmEvents r confirm))) := by
  constructor
  · exact engineerLoop_goodTurns
  · intro fuel r rest confirm restIn history events hr hs
    constructor
    · intro hc
      rw [engineer_ready_eq fuel r rest confirm restIn history events hr hs,
        if_pos hc]
    · intro hc
      rw [engineer_ready_eq fuel r rest confirm restIn history events hr hs,
        if_neg (by rw [hc]; exact Bool.false_ne_true)]

/-- Witness for C9: the invariant on a concrete terminating run, and the
affirmative-confirmation case at the concrete answer `"yes"`, whose
transcript carries only the agent turn. -/
theorem transcript_excludes_confirmation_witness :
    (∀ t ∈ ([⟨"assistant", "hi"⟩] : List Turn), goodTurn t) ∧
    engineerLoop 1 [readyMsg] ["yes"] [] [] =
      some ([⟨"assistant", readyMsg⟩],
        turnEvents readyMsg ++ confirmEvents readyMsg "yes") :=
  ⟨transcript_excludes_confirmation.1 1 ["hi"] ["done"] [] []
     ([⟨"assistant", "hi"⟩],
      turnEvents "hi" ++ [UiEvent.addMessage "agent" "hi",
        UiEvent.requestInput])
     (by decide) (by simp),
   (transcript_excludes_confirmation.2 0 readyMsg [] "yes" [] [] []
     (by decide) (by decide)).1 (by decide)⟩

/-- Recognizes `client.query` events in a trace. -/
def isQueryAgent : UiEvent → Bool
  | UiEvent.queryAgent _ => true
  | _ => false

/-- The trace of the run in which the human submits the empty string once:
one input request, then the loop returns to waiting on the agent. -/
def emptyInputTrace : List UiEvent :=
  turnEvents "What do you want?" ++
    [UiEvent.addMessage "agent" "What do you want?", UiEvent.requestInput] ++
    turnEvents ""

/-- C1, evaluated at the failing input: after the agent turn
`"What do you want?"` and an empty human input, the loop's `continue`
re-enters `client.receive_response()` — the trace holds exactly one input
request and two agent-turn waits, with no message sent to the agent — so no
second input request is ever issued, contrary to the claim; if the stream
yields nothing further (nothing was queried), the loop never returns. -/
theorem empty_input_no_reprompt :
    engineerLoop 2 ["What do you want?", ""] [""] [] [] =
      some ([⟨"assistant", "What do you want?"⟩], emptyInputTrace) ∧
    emptyInputTrace.count UiEvent.requestInput = 1 ∧
    emptyInputTrace.count UiEvent.awaitResponse = 2 ∧
    emptyInputTrace.countP isQueryAgent = 0 ∧
    engineerLoop 9 ["What do you want?"] [""] [] [] = none := by
  refine ⟨by decide, by decide, by decide, by decide, by decide⟩

set_option maxRecDepth 4000 in
/-- Witness for C5: a 150-character body is reported as a line count; a
60-character body gets a short preview ending in an ellipsis. -/
theorem tool_result_preview_witness :
    (log_tool_result (String.mk (List.replicate 150 'x')) =
      some ("Result: " ++
        toString ((String.mk (List.replicate 150 'x')).toList.count '\n' + 1) ++
        " lines")) ∧
    (∃ p, log_tool_result (String.mk (List.replicate 60 'y')) =
        some ("Result: " ++ p) ∧ pyLen p ≤ 100 ∧
      (50 < pyLen (String.mk (List.replicate 60 'y')) →
        ∃ q, p = q ++ "..." ∧ pyLen q = 50)) :=
  ⟨(tool_result_preview (String.mk (List.replicate 150 'x'))).1 (by decide),
   (tool_result_preview (String.mk (List.replicate 60 'y'))).2
     (by decide) (by decide)⟩
